import Mathlib

/-!
Verification of the multi-strategy search backend (Express + MongoDB Atlas +
OpenAI demo server).  The definitions below are a shallow embedding of the
branching logic of the two server variants in the repository:
`src/server.js` and `src/unnamed/part_000`.  Raw relevance scores are
modelled as rationals, documents as identifier/score pairs, and the
fallible upstream OpenAI calls as explicit `Except` parameters so that the
error-propagation behaviour of each call site is captured exactly.
-/

/-- Document identifier (MongoDB `_id`), abstracted to a natural number. -/
abbrev DocId := Nat

/-- A search result as it flows through the router: a document identity
together with its raw relevance score. -/
abbrev ScoredDoc := DocId × ℚ

/-- Score clamping used by every normalizing response mapping in the repo:
`Math.min(Math.max(score, 0), 1)` (server.js:381, server.js:829,
part_000:482). -/
def clampScore (s : ℚ) : ℚ := min (max s 0) 1

/-- Response-mapping of one result's score in `POST /api/search`
(server.js:378-384 and the image case of part_000:478-486):
`score: result.score ? Math.min(Math.max(result.score, 0), 1) : undefined`.
A JavaScript number is falsy exactly when it is `0` (or `NaN`, which has no
mathematical counterpart here), so a present raw score is clamped only when
it is nonzero; a raw score of `0`, like an absent one, maps to `undefined`
and the key is dropped from the serialized JSON. -/
def mapResultScore (raw : Option ℚ) : Option ℚ :=
  match raw with
  | none => none
  | some s => if s = 0 then none else some (clampScore s)

/-- Response-mapping of `POST /api/books/search` (server.js:826-832):
`results.map(r => ({...r, score: Math.min(Math.max(r.score, 0), 1)}))` —
the clamp is applied unconditionally to every result. -/
def booksRespondResults (rs : List ScoredDoc) : List ScoredDoc :=
  rs.map (fun p => (p.1, clampScore p.2))

/-- Response of `POST /api/ancient-texts/search` (server.js:1025-1027):
`res.json({ results, searchTime })` — the results are serialized exactly as
the pipeline produced them, with no score normalization. -/
def ancientTextsRespondResults (rs : List ScoredDoc) : List ScoredDoc :=
  rs

/-- Query enhancement for the product `semantic` search type
(`enhanceQueryWithGPT`, server.js:421-439 and part_000:528-546).  The
upstream chat-completion call is passed in as an `Except`; the function has
no try/catch, so an upstream failure propagates to the caller and a success
returns the completion content. -/
def enhanceQueryWithGPT (query : String) (completion : Except String String) :
    Except String String :=
  match completion with
  | Except.ok content => Except.ok content
  | Except.error e => Except.error e

/-- Query enhancement for the ancient-texts `semantic` search type
(`enhanceAncientQuery`, server.js:1035-1058).  The body is wrapped in
try/catch; on an upstream failure the catch block returns the original
query unchanged (server.js:1056). -/
def enhanceAncientQuery (query : String) (completion : Except String String) :
    String :=
  match completion with
  | Except.ok content => content
  | Except.error _ => query

/-- Image captioning (`processImage`, server.js:441-473 and
part_000:548-580).  The upstream chat-completion call is wrapped in
try/catch, but the catch block logs and rethrows (`throw error`,
server.js:471), so a failure propagates — no fallback caption. -/
def processImage (imageBuffer : List Nat) (completion : Except String String) :
    Except String String :=
  match completion with
  | Except.ok content => Except.ok content
  | Except.error e => Except.error e

/-- Observable outcome of the `case 'image'` branch of `POST /api/search`:
the ordered list of upstream OpenAI calls that were issued, the HTTP status
of the response, and the error message (if any). -/
structure ImageOutcome where
  upstreamCalls : List String
  status : Nat
  error : Option String
deriving DecidableEq, Repr

/-- The `case 'image'` branch of `POST /api/search` (server.js:349-371,
part_000:454-487) together with the surrounding try/catch
(server.js:386-392).  If `req.file` is absent the branch throws
`'No image file provided'` before any upstream call; the catch handler
answers with `res.status(500)`.  Otherwise the branch calls
`processImage` (one chat-completion call) and then `generateEmbedding`
(one embedding call); any upstream failure also lands in the 500 handler. -/
def imageCase (file : Option (List Nat)) (captionResult : Except String String)
    (embedResult : Except String (List ℚ)) : ImageOutcome :=
  match file with
  | none =>
      { upstreamCalls := [], status := 500, error := some "No image file provided" }
  | some buf =>
      match processImage buf captionResult with
      | Except.error e =>
          { upstreamCalls := ["chat.completions"], status := 500, error := some e }
      | Except.ok _ =>
          match embedResult with
          | Except.error e =>
              { upstreamCalls := ["chat.completions", "embeddings"], status := 500,
                error := some e }
          | Except.ok _ =>
              { upstreamCalls := ["chat.completions", "embeddings"], status := 200,
                error := none }

/-- Response of `POST /api/books/search`: status, mapped results, and
whether a `searchTime` field is present. -/
structure BooksResponse where
  status : Nat
  results : List ScoredDoc
  hasSearchTime : Bool
deriving DecidableEq, Repr

/-- Dispatch of `POST /api/books/search` (server.js:744-823): `results` is
initialized to `[]` and the `switch (type)` has cases only for `vector`,
`semantic` and `concept` — there is no default branch, so any other type
leaves `results` empty.  The pipeline outputs of the three cases are passed
in as parameters. -/
def booksSearchResults (type : String) (vec sem con : List ScoredDoc) :
    List ScoredDoc :=
  if type = "vector" then vec
  else if type = "semantic" then sem
  else if type = "concept" then con
  else []

/-- Full `POST /api/books/search` handler (server.js:738-840): dispatch,
then the unconditional clamp mapping, then `res.json` (status 200) with a
`searchTime` field. -/
def booksSearch (type : String) (vec sem con : List ScoredDoc) : BooksResponse :=
  { status := 200
    results := booksRespondResults (booksSearchResults type vec sem con)
    hasSearchTime := true }

/-- Descending-score order on results: `a` precedes `b` when `b`'s score is
at most `a`'s. -/
def scoreGe (a b : ScoredDoc) : Prop := b.2 ≤ a.2

instance : DecidableRel scoreGe :=
  fun a b => inferInstanceAs (Decidable (b.2 ≤ a.2))

instance : IsTotal ScoredDoc scoreGe := ⟨fun a b => le_total b.2 a.2⟩

instance : IsTrans ScoredDoc scoreGe := ⟨fun _ _ _ hab hbc => le_trans hbc hab⟩

/-- Modelled from the spec: the per-document combination step of
`combineResults`.  `combineResults` is called by the `concept` branch of
`POST /api/ancient-texts/search` (server.js:1014) but its definition is not
among the provided source files; the spec's merge policy says to union the
vector and text result sets by document identity and keep the maximum of
the two per-document scores when a document appears in both.  This function
combines one vector result with its text counterpart, if any. -/
def mergeWithText (txt : List ScoredDoc) (p : ScoredDoc) : ScoredDoc :=
  match txt.find? (fun q => q.1 == p.1) with
  | some q => (p.1, max p.2 q.2)
  | none => p

/-- Modelled from the spec: `combineResults` (called at server.js:1014, no
definition under the provided sources).  Per the spec's merge policy for
the `concept` type: union the vector result set and the text result set by
document identity, keep the maximum of the two per-document scores when a
document appears in both, and sort descending by combined score. -/
def combineResults (vec txt : List ScoredDoc) : List ScoredDoc :=
  List.insertionSort scoreGe
    (vec.map (mergeWithText txt) ++
      txt.filter (fun q => !(vec.any (fun p => p.1 == q.1))))

/-- The `concept` branch of `POST /api/ancient-texts/search`
(server.js:977-1019): run the vector pipeline (limit 20) and the text
pipeline independently, combine them with `combineResults`, then
`finalResults.slice(0, 10)` (server.js:1015). -/
def conceptSearch (vec txt : List ScoredDoc) : List ScoredDoc :=
  (combineResults vec txt).take 10

/-- State of the document store as far as index bootstrap is concerned: the
names of the ordinary indexes (`listIndexes`) and of the Atlas search
indexes (`listSearchIndexes`).  A successful create adds the name. -/
structure Store where
  indexes : List String
  searchIndexes : List String
deriving DecidableEq, Repr

/-- Appends a name to an index list unless it is already present. -/
def addIfMissing (l : List String) (n : String) : List String :=
  if n ∈ l then l else l ++ [n]

namespace Part000

/-- The `initializeDB` of `src/unnamed/part_000` (lines 583-673).  It lists
ordinary indexes and creates the compound `text_search_idx` only when that
name is absent; it lists search indexes once and creates
`atlas_search_idx` and `vector_index` only when those names are absent.
The result is the updated store paired with the list of create-index calls
performed, in order.  Created indexes are modelled as successfully added. -/
def initializeDB (s : Store) : Store × List String :=
  let ordCalls : List String :=
    if "text_search_idx" ∈ s.indexes then [] else ["text_search_idx"]
  let listedSearch := s.searchIndexes
  let atlasCalls : List String :=
    if "atlas_search_idx" ∈ listedSearch then [] else ["atlas_search_idx"]
  let vectorCalls : List String :=
    if "vector_index" ∈ listedSearch then [] else ["vector_index"]
  ({ indexes := s.indexes ++ ordCalls
     searchIndexes := s.searchIndexes ++ atlasCalls ++ vectorCalls },
   ordCalls ++ atlasCalls ++ vectorCalls)

end Part000

namespace ServerJs

/-- The `initializeDB` of `src/server.js` (lines 509-567).  It performs no
existence check of any kind: on every invocation it calls
`createSearchIndex` for `vector_index` (in try/catch), `createIndex` for
the text index, and `createIndex` for the four regular indexes.  The six
create calls are returned in order; the store gains any name not already
present (MongoDB treats re-creation of an identical ordinary index as a
no-op, and the search-index failure is swallowed by the catch). -/
def initializeDB (s : Store) : Store × List String :=
  ({ indexes :=
       ["text_search_index", "title_1", "period_1", "keywords_1",
        "metadata.dateAdded_1"].foldl addIfMissing s.indexes
     searchIndexes := addIfMissing s.searchIndexes "vector_index" },
   ["vector_index", "text_search_index", "title_1", "period_1", "keywords_1",
    "metadata.dateAdded_1"])

end ServerJs

/-- Toggle flags for the `atlas` search type of `POST /api/search`
(part_000:297-301); when `req.body.options` is absent all three default to
`true`. -/
structure AtlasOptions where
  fuzzyMatching : Bool
  autoComplete : Bool
  phraseMatching : Bool
deriving DecidableEq, Repr

/-- A sub-clause of the `$search` compound `should` array built by the
`atlas` case of part_000 (lines 305-341). -/
inductive SearchClause where
  | text (query : String) (path : List String) (boost : Nat)
  | fuzzyText (query : String) (path : List String)
      (maxEdits prefixLength maxExpansions boost : Nat)
  | autocompleteClause (query : String) (path : String) (boost : Nat)
deriving DecidableEq, Repr

/-- The `shouldClauses` array built by part_000's `atlas` case
(lines 296-341): phrase matching (boost 3) when `phraseMatching`, fuzzy
matching with `maxEdits 2, prefixLength 1, maxExpansions 100` (boost 1)
when `fuzzyMatching`, autocomplete over `title` (boost 2) when
`autoComplete`, in that order. -/
def buildShouldClauses (q : String) (opts : AtlasOptions) : List SearchClause :=
  (if opts.phraseMatching then
      [SearchClause.text q ["searchableTitle", "description"] 3]
    else []) ++
  (if opts.fuzzyMatching then
      [SearchClause.fuzzyText q ["searchableTitle", "description", "category"]
        2 1 100 1]
    else []) ++
  (if opts.autoComplete then
      [SearchClause.autocompleteClause q "title" 2]
    else [])

/-- The `$search` stage of part_000's `atlas` pipeline (lines 343-355):
`compound.should` with `minimumShouldMatch: 1` (OR semantics across the
sub-clauses) against the `advanced` index. -/
structure AtlasSearchStage where
  index : String
  shouldClauses : List SearchClause
  minimumShouldMatch : Nat
deriving DecidableEq, Repr

/-- The search stage as built by part_000 for a given query and options. -/
def atlasSearchStage (q : String) (opts : AtlasOptions) : AtlasSearchStage :=
  { index := "advanced"
    shouldClauses := buildShouldClauses q opts
    minimumShouldMatch := 1 }

/-- One aggregation stage of an `atlas` search pipeline, at the granularity
the claims need. -/
inductive PipelineStage where
  | search (s : AtlasSearchStage)
  | addScoreMeta (meta : String)
  | sortScoreDesc
  | projectFields
  | limitStage (n : Nat)
deriving DecidableEq, Repr

/-- The full `atlas` pipeline of part_000 (lines 343-400): `$search`, then
`$addFields` with `score: { $meta: "searchScore" }`, `$sort {score: -1}`,
`$project`, `$limit 10`. -/
def part000AtlasPipeline (q : String) (opts : AtlasOptions) : List PipelineStage :=
  [PipelineStage.search (atlasSearchStage q opts),
   PipelineStage.addScoreMeta "searchScore",
   PipelineStage.sortScoreDesc,
   PipelineStage.projectFields,
   PipelineStage.limitStage 10]

/-- The `atlas` case of `src/server.js` (lines 297-306): the pipeline is
the literal empty array (`const pipeline = [ ]` with only a placeholder
comment inside), which is then passed to `collection.aggregate`. -/
def serverAtlasPipeline : List PipelineStage := []

/-- C2 counterexample: a result whose raw score is exactly `0` does not get
the clamped score `max(0, min(0, 1)) = 0` in the `POST /api/search`
response — the truthiness test drops the key instead, so the claim's
"reported score equals the clamp" fails at raw score `0`. -/
theorem mapResultScore_zero_not_clamped :
    mapResultScore (some 0) = none ∧
    mapResultScore (some 0) ≠ some (clampScore 0) := by
  decide

/-- C2 (amended): for every result whose raw score is nonzero, the reported
score in the `POST /api/search` response equals `min(max(raw, 0), 1)` and
lies in `[0, 1]`; a raw score of exactly `0`, like an absent one, yields no
score key — in particular `type=basic` results (which carry no raw score)
have no score key. -/
theorem mapResultScore_nonzero_clamped (s : ℚ) (hs : s ≠ 0) :
    mapResultScore (some s) = some (clampScore s) ∧
    0 ≤ clampScore s ∧ clampScore s ≤ 1 ∧
    mapResultScore none = none :=
  ⟨by simp [mapResultScore, hs], le_min (le_max_right s 0) zero_le_one,
   min_le_right _ _, rfl⟩

theorem mapResultScore_nonzero_clamped_witness :
    ((2 : ℚ) ≠ 0) ∧
    (mapResultScore (some (2 : ℚ)) = some (clampScore (2 : ℚ)) ∧
     0 ≤ clampScore (2 : ℚ) ∧ clampScore (2 : ℚ) ≤ 1 ∧
     mapResultScore none = none) :=
  ⟨by decide, mapResultScore_nonzero_clamped (2 : ℚ) (by decide)⟩

/-- C3 counterexample: the product-side query rewriter
`enhanceQueryWithGPT` has no try/catch, so on an upstream completion
failure it does not return the original query — the error propagates. -/
theorem enhanceQueryWithGPT_propagates_failure :
    enhanceQueryWithGPT "red shoes" (Except.error "boom") = Except.error "boom" ∧
    enhanceQueryWithGPT "red shoes" (Except.error "boom") ≠ Except.ok "red shoes" := by
  refine ⟨rfl, fun h => ?_⟩
  cases h

/-- C3 (amended): the two query rewriters behave asymmetrically on upstream
failure — `enhanceAncientQuery` (ancient-texts `semantic` path) falls back
to the original input query unchanged, while `enhanceQueryWithGPT`
(product `semantic` path) propagates the failure so the request fails. -/
theorem rewriteQuery_fallback_split (q e : String) :
    enhanceAncientQuery q (Except.error e) = q ∧
    enhanceQueryWithGPT q (Except.error e) = Except.error e :=
  ⟨rfl, rfl⟩

/-- C5 counterexample: `POST /api/ancient-texts/search` returns its scored
results exactly as the pipeline produced them — a raw score of `3/2` leaves
the router as `3/2`, outside `[0, 1]`, so normalization is not applied
uniformly across all search endpoints. -/
theorem ancientTexts_score_unnormalized :
    ancientTextsRespondResults [(1, (3 : ℚ)/2)] = [(1, (3 : ℚ)/2)] ∧
    ¬ ((3 : ℚ)/2 ≤ 1) :=
  ⟨rfl, by norm_num⟩

/-- C5 (amended): score normalization into `[0, 1]` is applied to every
scored result of `POST /api/books/search` and of `POST /api/search`, but
`POST /api/ancient-texts/search` returns raw pipeline scores unchanged. -/
theorem normalization_per_endpoint (rs : List ScoredDoc) (raw : Option ℚ) (s : ℚ) :
    (∀ p ∈ booksRespondResults rs, 0 ≤ p.2 ∧ p.2 ≤ 1) ∧
    (mapResultScore raw = some s → 0 ≤ s ∧ s ≤ 1) ∧
    ancientTextsRespondResults rs = rs := by
  refine ⟨?_, ?_, rfl⟩
  · intro p hp
    rcases List.mem_map.mp hp with ⟨q, _, hpq⟩
    rw [← hpq]
    exact ⟨le_min (le_max_right q.2 0) zero_le_one, min_le_right _ _⟩
  · intro h
    cases raw with
    | none => exact absurd h (by simp [mapResultScore])
    | some t =>
      by_cases ht : t = 0
      · simp [mapResultScore, ht] at h
      · simp [mapResultScore, ht] at h
        rw [← h]
        exact ⟨le_min (le_max_right t 0) zero_le_one, min_le_right _ _⟩

theorem normalization_per_endpoint_witness :
    (0 ≤ (1 : ℚ) ∧ (1 : ℚ) ≤ 1) ∧
    ancientTextsRespondResults [(1, (3 : ℚ)/2)] = [(1, (3 : ℚ)/2)] :=
  ⟨(normalization_per_endpoint [] (some (1 : ℚ)) (1 : ℚ)).2.1 (by decide),
   (normalization_per_endpoint [(1, (3 : ℚ)/2)] none 0).2.2⟩

/-- C6 counterexample: a `type=image` request without an uploaded file is
answered through the catch handler with `res.status(500)` — a server-error
status, not a 4xx client error as the claim states. -/
theorem imageCase_noFile_status_500 :
    (imageCase none (Except.ok "a red sneaker") (Except.ok [])).status = 500 ∧
    ¬ (400 ≤ (imageCase none (Except.ok "a red sneaker") (Except.ok [])).status ∧
       (imageCase none (Except.ok "a red sneaker") (Except.ok [])).status < 500) := by
  decide

/-- C6 (amended): a `type=image` request without an uploaded file is
answered with an error response (HTTP 500, message
`'No image file provided'`) without attempting any embedding or completion
call — the upstream call list is empty regardless of what the upstream
services would have answered. -/
theorem imageCase_noFile_no_upstream (cap : Except String String)
    (emb : Except String (List ℚ)) :
    imageCase none cap emb =
      { upstreamCalls := [], status := 500, error := some "No image file provided" } :=
  rfl

/-- C8: when the upstream completion call inside `processImage` fails, the
error propagates (the catch block rethrows), no fallback caption is
substituted, and the whole image-search request fails with a 500 carrying
that error — asymmetric with `enhanceAncientQuery`'s fallback. -/
theorem processImage_propagates (img : List Nat) (e : String)
    (emb : Except String (List ℚ)) :
    processImage img (Except.error e) = Except.error e ∧
    (imageCase (some img) (Except.error e) emb).status = 500 ∧
    (imageCase (some img) (Except.error e) emb).error = some e :=
  ⟨rfl, rfl, rfl⟩

/-- C9: in the `POST /api/search` response mapping, a result whose raw
score is exactly `0` has its score key dropped (the mapping tests
truthiness, not presence), so it is indistinguishable at the public
interface from an unscored result. -/
theorem zero_score_indistinguishable :
    mapResultScore (some 0) = none ∧ mapResultScore none = none ∧
    mapResultScore (some 0) = mapResultScore none := by
  decide

/-- C10: a `POST /api/books/search` request whose type is none of
`vector`, `semantic`, `concept` falls through the switch (which has no
default branch) and is answered 200 with an empty results list and a
`searchTime`, not an "invalid search type" error. -/
theorem booksSearch_unknown_type_200 (type : String) (vec sem con : List ScoredDoc)
    (h1 : type ≠ "vector") (h2 : type ≠ "semantic") (h3 : type ≠ "concept") :
    booksSearch type vec sem con =
      { status := 200, results := [], hasSearchTime := true } := by
  simp [booksSearch, booksSearchResults, booksRespondResults, h1, h2, h3]

theorem booksSearch_unknown_type_200_witness :
    ("basic" ≠ "vector" ∧ "basic" ≠ "semantic" ∧ "basic" ≠ "concept") ∧
    booksSearch "basic" [(1, (5 : ℚ))] [(2, (7 : ℚ))] [(3, (9 : ℚ))] =
      { status := 200, results := [], hasSearchTime := true } :=
  ⟨⟨by decide, by decide, by decide⟩,
   booksSearch_unknown_type_200 "basic" [(1, (5 : ℚ))] [(2, (7 : ℚ))]
     [(3, (9 : ℚ))] (by decide) (by decide) (by decide)⟩

/-- C4 counterexample: the `initializeDB` of `src/server.js` performs its
create-index calls unconditionally — invoking it a second time, on the
store produced by a first invocation (which contains every index name it
creates), still performs six create calls, not zero. -/
theorem serverInitializeDB_not_idempotent :
    (ServerJs.initializeDB
      (ServerJs.initializeDB { indexes := [], searchIndexes := [] }).1).2 ≠ [] := by
  decide

/-- C4 (amended): only the bootstrapper of `src/unnamed/part_000` is
idempotent by index name — when the store already contains all three index
kinds by name it performs zero create calls, and any second invocation in
a row performs zero create calls; the bootstrapper of `src/server.js`
performs its create-index calls unconditionally on every invocation. -/
theorem initializeDB_idempotent_split (s : Store) :
    ("text_search_idx" ∈ s.indexes → "atlas_search_idx" ∈ s.searchIndexes →
      "vector_index" ∈ s.searchIndexes → (Part000.initializeDB s).2 = []) ∧
    (Part000.initializeDB (Part000.initializeDB s).1).2 = [] ∧
    (ServerJs.initializeDB s).2 ≠ [] := by
  refine ⟨?_, ?_, by simp [ServerJs.initializeDB]⟩
  · intro h1 h2 h3
    simp [Part000.initializeDB, h1, h2, h3]
  · by_cases h1 : "text_search_idx" ∈ s.indexes <;>
      by_cases h2 : "atlas_search_idx" ∈ s.searchIndexes <;>
      by_cases h3 : "vector_index" ∈ s.searchIndexes <;>
      simp [Part000.initializeDB, h1, h2, h3]

theorem initializeDB_idempotent_split_witness :
    (Part000.initializeDB
      { indexes := ["text_search_idx"],
        searchIndexes := ["atlas_search_idx", "vector_index"] }).2 = [] :=
  (initializeDB_idempotent_split
      { indexes := ["text_search_idx"],
        searchIndexes := ["atlas_search_idx", "vector_index"] }).1
    (by decide) (by decide) (by decide)

/-- C7 counterexample: in `src/server.js` the `atlas` case's pipeline is
the literal empty array — it contains no phrase, fuzzy or autocomplete
sub-clause (indeed no stage at all), so the claimed clause structure does
not hold for that variant of the search type. -/
theorem serverAtlasPipeline_is_empty : serverAtlasPipeline = [] := rfl

/-- C7 (amended): in `src/unnamed/part_000` the `atlas` pipeline combines
phrase matching (boost 3), fuzzy matching with maxEdits 2, prefixLength 1
and maxExpansions 100 (boost 1), and autocomplete (boost 2) as
independently toggleable sub-clauses of a `compound.should` with
`minimumShouldMatch 1` (OR semantics), scored by the engine's
`searchScore` meta; in `src/server.js` the `atlas` case instead runs an
empty pipeline. -/
theorem atlas_clause_structure (q : String) (opts : AtlasOptions) :
    (SearchClause.text q ["searchableTitle", "description"] 3 ∈
        (atlasSearchStage q opts).shouldClauses ↔ opts.phraseMatching = true) ∧
    (SearchClause.fuzzyText q ["searchableTitle", "description", "category"]
        2 1 100 1 ∈ (atlasSearchStage q opts).shouldClauses ↔
      opts.fuzzyMatching = true) ∧
    (SearchClause.autocompleteClause q "title" 2 ∈
        (atlasSearchStage q opts).shouldClauses ↔ opts.autoComplete = true) ∧
    (atlasSearchStage q opts).minimumShouldMatch = 1 ∧
    PipelineStage.addScoreMeta "searchScore" ∈ part000AtlasPipeline q opts ∧
    serverAtlasPipeline = [] := by
  rcases opts with ⟨f, a, p⟩
  cases f <;> cases a <;> cases p <;>
    simp [atlasSearchStage, buildShouldClauses, part000AtlasPipeline,
      serverAtlasPipeline]

/-- When the ids of `l` are pairwise distinct, `find?` for id `d` returns
exactly the unique entry of `l` carrying id `d`. -/
theorem find_entry_of_nodup {l : List ScoredDoc} {d : DocId} {s : ℚ}
    (hnd : (l.map Prod.fst).Nodup) (hmem : (d, s) ∈ l) :
    l.find? (fun q => q.1 == d) = some (d, s) := by
  induction l with
  | nil => cases hmem
  | cons q qs ih =>
    rw [List.map_cons, List.nodup_cons] at hnd
    rcases List.mem_cons.mp hmem with h | h
    · rw [← h]
      exact List.find?_cons_of_pos _ (by simp)
    · have hq : q.1 ≠ d := by
        intro hqd
        apply hnd.1
        rw [hqd]
        exact List.mem_map_of_mem Prod.fst h
      rw [List.find?_cons_of_neg _ (by simp [hq])]
      exact ih hnd.2 h

/-- The combined entry of a document present in both result sets carries
the maximum of its two scores. -/
theorem mergeWithText_pair {txt : List ScoredDoc} {d : DocId} {st : ℚ}
    (ht : (txt.map Prod.fst).Nodup) (hdt : (d, st) ∈ txt) (sv : ℚ) :
    mergeWithText txt (d, sv) = (d, max sv st) := by
  unfold mergeWithText
  rw [show txt.find? (fun q => q.1 == (d, sv).1) = some (d, st) from
    find_entry_of_nodup ht hdt]

/-- Combining a vector result with its text counterpart never changes the
document identity. -/
theorem mergeWithText_fst (txt : List ScoredDoc) (p : ScoredDoc) :
    (mergeWithText txt p).1 = p.1 := by
  unfold mergeWithText
  cases h : txt.find? (fun q => q.1 == p.1) with
  | none => rfl
  | some q => rfl

/-- C1 (spec-modelled merge): for the `concept` search type, a document
appearing in both the vector result set and the text result set appears
exactly once in the merged list, with the combined score `max` of its two
per-document scores; the endpoint's final result list is the merged list
truncated to 10 entries, is sorted descending by combined score, contains
the document at most once, and has length at most 10. -/
theorem concept_merge_spec (vec txt : List ScoredDoc) (d : DocId) (sv st : ℚ)
    (hv : (vec.map Prod.fst).Nodup) (ht : (txt.map Prod.fst).Nodup)
    (hdv : (d, sv) ∈ vec) (hdt : (d, st) ∈ txt) :
    (combineResults vec txt).countP (fun p => p.1 == d) = 1 ∧
    (d, max sv st) ∈ combineResults vec txt ∧
    List.Sorted scoreGe (combineResults vec txt) ∧
    conceptSearch vec txt = (combineResults vec txt).take 10 ∧
    (conceptSearch vec txt).countP (fun p => p.1 == d) ≤ 1 ∧
    List.Sorted scoreGe (conceptSearch vec txt) ∧
    (conceptSearch vec txt).length ≤ 10 := by
  have hperm :
      (combineResults vec txt).Perm
        (vec.map (mergeWithText txt) ++
          txt.filter (fun q => !(vec.any (fun p => p.1 == q.1)))) :=
    List.perm_insertionSort scoreGe _
  have hcount1 :
      (vec.map (mergeWithText txt)).countP (fun p => p.1 == d) = 1 := by
    have hcong : ∀ x ∈ vec,
        (((fun p : ScoredDoc => p.1 == d) ∘ mergeWithText txt) x = true ↔
          ((fun p : ScoredDoc => p.1 == d) x = true)) := by
      intro x hx
      simp [Function.comp, mergeWithText_fst]
    rw [List.countP_map, List.countP_congr hcong]
    have hone : List.count d (vec.map Prod.fst) = 1 :=
      List.count_eq_one_of_mem hv (List.mem_map_of_mem Prod.fst hdv)
    rw [List.count_eq_countP, List.countP_map] at hone
    exact hone
  have hcount0 :
      (txt.filter (fun q => !(vec.any (fun p => p.1 == q.1)))).countP
        (fun p => p.1 == d) = 0 := by
    rw [List.countP_eq_zero]
    intro a ha had
    rcases List.mem_filter.mp ha with ⟨_, hcond⟩
    have had' : a.1 = d := by simpa using had
    have hany : vec.any (fun p => p.1 == a.1) = true := by
      rw [List.any_eq_true]
      refine ⟨(d, sv), hdv, ?_⟩
      simp [had']
    rw [hany] at hcond
    simp at hcond
  have hcountAll : (combineResults vec txt).countP (fun p => p.1 == d) = 1 := by
    rw [List.Perm.countP_eq _ hperm, List.countP_append, hcount1, hcount0]
  have hmem : (d, max sv st) ∈ combineResults vec txt := by
    rw [hperm.mem_iff]
    apply List.mem_append_left
    rw [← mergeWithText_pair ht hdt sv]
    exact List.mem_map_of_mem (mergeWithText txt) hdv
  have hsorted : List.Sorted scoreGe (combineResults vec txt) :=
    List.sorted_insertionSort scoreGe _
  refine ⟨hcountAll, hmem, hsorted, rfl, ?_, ?_, ?_⟩
  · calc (conceptSearch vec txt).countP (fun p => p.1 == d)
        ≤ (combineResults vec txt).countP (fun p => p.1 == d) :=
          List.Sublist.countP_le _ (List.take_sublist 10 _)
      _ = 1 := hcountAll
  · exact List.Pairwise.sublist (List.take_sublist 10 _) hsorted
  · exact List.length_take_le 10 _

theorem concept_merge_spec_witness :
    ((([(1, (9 : ℚ)), (2, (5 : ℚ))] : List ScoredDoc).map Prod.fst).Nodup ∧
     (([(1, (4 : ℚ))] : List ScoredDoc).map Prod.fst).Nodup ∧
     ((1 : DocId), (9 : ℚ)) ∈ ([(1, (9 : ℚ)), (2, (5 : ℚ))] : List ScoredDoc) ∧
     ((1 : DocId), (4 : ℚ)) ∈ ([(1, (4 : ℚ))] : List ScoredDoc)) ∧
    ((combineResults [(1, 9), (2, 5)] [(1, 4)]).countP (fun p => p.1 == 1) = 1 ∧
     ((1 : DocId), max (9 : ℚ) 4) ∈ combineResults [(1, 9), (2, 5)] [(1, 4)] ∧
     List.Sorted scoreGe (combineResults [(1, 9), (2, 5)] [(1, 4)]) ∧
     conceptSearch [(1, 9), (2, 5)] [(1, 4)] =
       (combineResults [(1, 9), (2, 5)] [(1, 4)]).take 10 ∧
     (conceptSearch [(1, 9), (2, 5)] [(1, 4)]).countP (fun p => p.1 == 1) ≤ 1 ∧
     List.Sorted scoreGe (conceptSearch [(1, 9), (2, 5)] [(1, 4)]) ∧
     (conceptSearch [(1, 9), (2, 5)] [(1, 4)]).length ≤ 10) :=
  ⟨⟨by decide, by decide, by decide, by decide⟩,
   concept_merge_spec [(1, 9), (2, 5)] [(1, 4)] 1 9 4
     (by decide) (by decide) (by decide) (by decide)⟩
